import Mathlib

/-!
Verification development for the Personal-Assistant repository
(`src/servers/server__v2.py`, `src/servers/checks.py`,
`src/servers/build/lib/server_stdio.py`).

The Python code is shallowly embedded: Python dicts/lists returned by the
adapter become `Json` values, the Gmail REST service is an explicit
environment of response functions (`GmailEnv`), the single mutable adapter
object (`gmail = GmailTool()`) becomes explicit state passing over
`AdapterState`, and every REST call made is recorded in a trace so that
call-count and call-absence properties can be stated.  Exceptions are
`Except String` with the string playing the role of `str(e)`.
-/

namespace PersonalAssistant

/-- A single quote character; used to build Python f-string messages. -/
def sq : String := String.mk [Char.ofNat 39]

/-- Model of a Python value as produced by the adapter (dicts, lists,
strings, ints).  Dicts keep insertion order, as Python dicts do. -/
inductive Json where
  | jstr (s : String) : Json
  | jnat (n : Nat) : Json
  | jarr (xs : List Json) : Json
  | jobj (fields : List (String × Json)) : Json

/-- A Gmail label record as returned by `users().labels().list()`:
the code reads fields `l["id"]` and `l["name"]`. -/
structure Label where
  id : String
  name : String
deriving DecidableEq

/-- An entry of `results.get("messages", [])`: the code reads `m["id"]`. -/
structure MsgRef where
  id : String
deriving DecidableEq

/-- A message payload (`msg["payload"]`), as read by the code:
`mimeType`, `headers` (name/value pairs), `body.get("data", "")` and the
optional `parts` list (`"parts" in payload`).  `parts = none` models a
payload without the `"parts"` key; nested parts model the recursive MIME
structure that `_get_body` walks only at depth 1. -/
inductive Payload where
  | mk (mimeType : String) (headers : List (String × String)) (data : String)
      (parts : Option (List Payload)) : Payload

def Payload.mimeType : Payload → String
  | .mk m _ _ _ => m

def Payload.headers : Payload → List (String × String)
  | .mk _ h _ _ => h

def Payload.data : Payload → String
  | .mk _ _ d _ => d

def Payload.parts : Payload → Option (List Payload)
  | .mk _ _ _ p => p

/-- What the code reads from a `users().messages().get(...)` response:
`email_data["payload"]` and `email_data.get("snippet", "")`. -/
structure MessageData where
  payload : Payload
  snippet : String

/-! ## Models of the Python library functions used by the code -/

/-- `{h["name"]: h["value"] for h in headers}` followed by `.get(name, "")`:
a Python dict comprehension keeps the LAST entry for a duplicated key. -/
def headerGet (headers : List (String × String)) (name : String) : String :=
  match headers.reverse.find? (fun h => h.1 == name) with
  | some h => h.2
  | none => ""

/-- Index of a character in the standard base64 alphabet, `none` for
characters outside it. -/
def b64CharIndex (c : Char) : Option Nat :=
  if 65 ≤ c.toNat ∧ c.toNat ≤ 90 then some (c.toNat - 65)
  else if 97 ≤ c.toNat ∧ c.toNat ≤ 122 then some (26 + c.toNat - 97)
  else if 48 ≤ c.toNat ∧ c.toNat ≤ 57 then some (52 + c.toNat - 48)
  else if c = '+' then some 62
  else if c = '/' then some 63
  else none

/-- The character translation done by `base64.urlsafe_b64decode`:
`-` becomes `+` and `_` becomes `/`. -/
def b64UrlTranslate (c : Char) : Char :=
  if c = '-' then '+' else if c = '_' then '/' else c

/-- Decode a list of 6-bit values (already grouped, padding removed) into
bytes: full quads give 3 bytes, a trailing triple 2 bytes, a trailing
pair 1 byte. -/
def b64DecodeQuads : List Nat → List Nat
  | a :: b :: c :: d :: rest =>
      (a * 4 + b / 16) :: ((b % 16) * 16 + c / 4) :: ((c % 4) * 64 + d)
        :: b64DecodeQuads rest
  | [a, b] => [a * 4 + b / 16]
  | [a, b, c] => [a * 4 + b / 16, (b % 16) * 16 + c / 4]
  | _ => []

/-- Model of `base64.urlsafe_b64decode(s)` (CPython legacy mode): translate
the urlsafe alphabet, discard characters outside alphabet-or-padding, demand
a padded length that is a multiple of 4, and decode; on bad padding raise
`binascii.Error` (represented by its message string). -/
def pyUrlsafeB64decode (s : String) : Except String (List Nat) :=
  let kept := (s.toList.map b64UrlTranslate).filter
    (fun c => (b64CharIndex c).isSome || c == '=')
  let dataChars := kept.takeWhile (fun c => c != '=')
  if kept.length % 4 ≠ 0 ∨ dataChars.length % 4 = 1 then
    Except.error "binascii.Error: Incorrect padding"
  else
    Except.ok (b64DecodeQuads (dataChars.filterMap b64CharIndex))

/-- Is a byte a UTF-8 continuation byte? -/
def isCont (b : Nat) : Bool := 128 ≤ b && b < 192

/-- Attempt to decode one multi-byte UTF-8 sequence with lead byte `b`
followed by `rest`; returns the decoded character and the number of
continuation bytes it consumes.  Overlong encodings, surrogate code points
and out-of-range values are rejected. -/
def utf8Lookahead (b : Nat) (rest : List Nat) : Option (Char × Nat) :=
  if 194 ≤ b && b ≤ 223 then
    match rest with
    | b2 :: _ =>
      if isCont b2 then some (Char.ofNat ((b - 192) * 64 + (b2 - 128)), 1)
      else none
    | _ => none
  else if 224 ≤ b && b ≤ 239 then
    match rest with
    | b2 :: b3 :: _ =>
      if isCont b2 && isCont b3 then
        let cp := (b - 224) * 4096 + (b2 - 128) * 64 + (b3 - 128)
        if 2048 ≤ cp && (cp < 55296 || 57343 < cp) then some (Char.ofNat cp, 2)
        else none
      else none
    | _ => none
  else if 240 ≤ b && b ≤ 244 then
    match rest with
    | b2 :: b3 :: b4 :: _ =>
      if isCont b2 && isCont b3 && isCont b4 then
        let cp := (b - 240) * 262144 + (b2 - 128) * 4096 + (b3 - 128) * 64
          + (b4 - 128)
        if 65536 ≤ cp && cp ≤ 1114111 then some (Char.ofNat cp, 3)
        else none
      else none
    | _ => none
  else none

/-- Model of `bytes.decode("utf-8", errors="ignore")`: decode UTF-8,
skipping bytes that do not start a valid sequence. -/
def utf8DecodeIgnore : List Nat → List Char
  | [] => []
  | b :: rest =>
    if b < 128 then Char.ofNat b :: utf8DecodeIgnore rest
    else
      match utf8Lookahead b rest with
      | some (c, k) => c :: utf8DecodeIgnore (rest.drop k)
      | none => utf8DecodeIgnore rest
termination_by bs => bs.length
decreasing_by all_goals simp [List.length_drop] <;> omega

/-- `base64.urlsafe_b64decode(data).decode("utf-8", errors="ignore")` as one
step, as it appears in `GmailTool._get_body`. -/
def pyDecodeBodyData (data : String) : Except String String :=
  match pyUrlsafeB64decode data with
  | Except.ok bytes => Except.ok (String.mk (utf8DecodeIgnore bytes))
  | Except.error e => Except.error e

/-- UTF-8 encoding of one character (model of Python `str.encode`). -/
def utf8EncodeChar (c : Char) : List Nat :=
  let n := c.toNat
  if n < 128 then [n]
  else if n < 2048 then [192 + n / 64, 128 + n % 64]
  else if n < 65536 then [224 + n / 4096, 128 + (n / 64) % 64, 128 + n % 64]
  else [240 + n / 262144, 128 + (n / 4096) % 64, 128 + (n / 64) % 64,
    128 + n % 64]

/-- UTF-8 encoding of a string as a byte list. -/
def utf8Encode (s : String) : List Nat :=
  (s.toList.map utf8EncodeChar).flatten

/-- Character of an index in the standard base64 alphabet. -/
def b64AlphaChar (i : Nat) : Char :=
  if i < 26 then Char.ofNat (65 + i)
  else if i < 52 then Char.ofNat (97 + i - 26)
  else if i < 62 then Char.ofNat (48 + i - 52)
  else if i = 62 then '+' else '/'

/-- Standard base64 encoding of a byte list (with `=` padding). -/
def b64EncodeBytes : List Nat → List Char
  | b1 :: b2 :: b3 :: rest =>
      b64AlphaChar (b1 / 4) :: b64AlphaChar ((b1 % 4) * 16 + b2 / 16)
        :: b64AlphaChar ((b2 % 16) * 4 + b3 / 64) :: b64AlphaChar (b3 % 64)
        :: b64EncodeBytes rest
  | [b1, b2] => [b64AlphaChar (b1 / 4), b64AlphaChar ((b1 % 4) * 16 + b2 / 16),
      b64AlphaChar ((b2 % 16) * 4), '=']
  | [b1] => [b64AlphaChar (b1 / 4), b64AlphaChar ((b1 % 4) * 16), '=', '=']
  | [] => []

/-- Model of `base64.urlsafe_b64encode(bytes).decode("utf-8")`. -/
def pyUrlsafeB64encode (bytes : List Nat) : String :=
  String.mk ((b64EncodeBytes bytes).map
    (fun c => if c = '+' then '-' else if c = '/' then '_' else c))

/-- Lower-case hex digit. -/
def hexDigit (n : Nat) : Char :=
  if n < 10 then Char.ofNat (48 + n) else Char.ofNat (97 + n - 10)

/-- A `\uXXXX` escape for a 16-bit value. -/
def uEscape (n : Nat) : String :=
  String.mk ['\\', 'u', hexDigit (n / 4096 % 16), hexDigit (n / 256 % 16),
    hexDigit (n / 16 % 16), hexDigit (n % 16)]

/-- JSON string escaping as done by `json.dumps` with its default
`ensure_ascii=True`: non-ASCII characters become `\uXXXX` escapes
(surrogate pairs above the BMP). -/
def jsonEscapeChar (c : Char) : String :=
  if c = '"' then "\\\""
  else if c = '\\' then "\\\\"
  else if c = '\n' then "\\n"
  else if c = '\t' then "\\t"
  else if c = '\r' then "\\r"
  else if c.toNat = 8 then "\\b"
  else if c.toNat = 12 then "\\f"
  else if c.toNat < 32 then uEscape c.toNat
  else if c.toNat < 127 then String.mk [c]
  else if c.toNat < 65536 then uEscape c.toNat
  else uEscape (55296 + (c.toNat - 65536) / 1024)
    ++ uEscape (56320 + (c.toNat - 65536) % 1024)

/-- A JSON string literal for `s`. -/
def jsonQuote (s : String) : String :=
  "\"" ++ String.join (s.toList.map jsonEscapeChar) ++ "\""

/-- Indentation for `json.dumps(..., indent=2)` at nesting level `lvl`. -/
def jsonIndent (lvl : Nat) : String :=
  String.join (List.replicate lvl "  ")

mutual

/-- Render a `Json` value the way `json.dumps(x, indent=2)` does at nesting
level `lvl`. -/
def renderJson : Json → Nat → String
  | Json.jstr s, _ => jsonQuote s
  | Json.jnat n, _ => Nat.repr n
  | Json.jarr [], _ => "[]"
  | Json.jarr (x :: xs), lvl =>
    "[\n" ++ String.intercalate ",\n" (renderJsonList (x :: xs) (lvl + 1))
      ++ "\n" ++ jsonIndent lvl ++ "]"
  | Json.jobj [], _ => "\x7b\x7d"
  | Json.jobj (f :: fs), lvl =>
    "\x7b\n" ++ String.intercalate ",\n" (renderJsonFields (f :: fs) (lvl + 1))
      ++ "\n" ++ jsonIndent lvl ++ "\x7d"

/-- Rendered items of a JSON array, each on its own indented line. -/
def renderJsonList : List Json → Nat → List String
  | [], _ => []
  | x :: xs, lvl => (jsonIndent lvl ++ renderJson x lvl) :: renderJsonList xs lvl

/-- Rendered `"key": value` fields of a JSON object. -/
def renderJsonFields : List (String × Json) → Nat → List String
  | [], _ => []
  | (k, v) :: fs, lvl =>
    (jsonIndent lvl ++ jsonQuote k ++ ": " ++ renderJson v lvl)
      :: renderJsonFields fs lvl

end

/-- Model of `json.dumps(x, indent=2)` as used by the tool handlers. -/
def pyJsonDumps (j : Json) : String := renderJson j 0

/-- Lower-casing of one character (ASCII range). -/
def pyLowerChar (c : Char) : Char :=
  if 65 ≤ c.toNat ∧ c.toNat ≤ 90 then Char.ofNat (c.toNat + 32) else c

/-- Model of Python `str.lower()` (the code only compares label names,
which the embedding treats at ASCII granularity). -/
def pyLower (s : String) : String := String.mk (s.toList.map pyLowerChar)

/-! ## The Gmail service seen by the adapter

`GmailEnv` fixes, for one run, the response of every REST endpoint the code
calls (`Except.error e` models the call raising an exception whose `str` is
`e`).  Every call made through the service handle is recorded as an
`ApiCall` in a trace, so that call-count and call-absence claims can be
stated. -/

/-- One REST call made through the service handle, carrying the arguments
the code passes to it. -/
inductive ApiCall where
  | messagesList (q : String) (maxResults : Nat) : ApiCall
  | messagesGet (id : String) (format : String) : ApiCall
  | messagesTrash (id : String) : ApiCall
  | messagesDelete (id : String) : ApiCall
  | messagesSend (raw : String) : ApiCall
  | messagesListByLabel (labelId : String) : ApiCall
  | batchModify (ids : List String) : ApiCall
  | labelsList : ApiCall
  | labelsCreate (name : String) (labelListVisibility : String)
      (messageListVisibility : String) : ApiCall
  | labelsUpdate (id : String) : ApiCall
  | labelsDelete (id : String) : ApiCall
deriving DecidableEq

/-- Responses of the external Gmail REST service, one field per endpoint
the code calls.  List-valued endpoints already incorporate the
`.get("messages", [])` / `.get("labels", [])` defaulting the code applies
to the raw response.  `authResult` abstracts the whole OAuth dance in
`GmailTool.auth` (token file, refresh, consent flow), which the spec
treats as an external collaborator; `Except.error e` means `auth()`
raises `e`. -/
structure GmailEnv where
  authResult : Except String Unit
  messagesList : String → Nat → Except String (List MsgRef)
  messagesGet : String → String → Except String MessageData
  messagesTrash : String → Except String Unit
  messagesSend : String → Except String Json
  messagesListByLabel : String → Except String (List MsgRef)
  batchModify : List String → Except String Unit
  labelsList : Except String (List Label)
  labelsCreate : String → String → String → Except String Json
  labelsUpdate : String → List (String × Json) → Except String Json
  labelsDelete : String → Except String Unit
  messagesDelete : String → Except String Unit

/-- The mutable state of the single module-level `gmail = GmailTool()`
object, plus the verification trace of REST calls made so far.
`service = none` is the unauthenticated state (`self.service = None`);
`authCalls` counts invocations of `GmailTool.auth`. -/
structure AdapterState where
  service : Option Unit
  authCalls : Nat
  trace : List ApiCall
deriving DecidableEq

/-- `AdapterState` of a freshly constructed `GmailTool()`. -/
def initialAdapterState : AdapterState := ⟨none, 0, []⟩

/-- A Gmail-method body after the auth check: a computation that may make
REST calls (extending the trace) and may raise. -/
def ApiM (α : Type) : Type := List ApiCall → Except String α × List ApiCall

def ApiM.pure {α : Type} (a : α) : ApiM α := fun tr => (Except.ok a, tr)

def ApiM.bind {α β : Type} (x : ApiM α) (f : α → ApiM β) : ApiM β := fun tr =>
  match x tr with
  | (Except.ok a, tr2) => f a tr2
  | (Except.error e, tr2) => (Except.error e, tr2)

/-- Make one REST call: record it and produce the environment's response. -/
def ApiM.call {α : Type} (c : ApiCall) (resp : Except String α) : ApiM α :=
  fun tr => (resp, tr ++ [c])

/-- Lift an already-computed `Except` (e.g. a pure helper that may raise)
into `ApiM`. -/
def ApiM.ofExcept {α : Type} (x : Except String α) : ApiM α := fun tr => (x, tr)

/-- The `if not self.service: self.auth()` guard every Gmail method starts
with, followed by the method body.  `auth()` either succeeds — setting
`self.service` to the built handle — or raises, leaving `service` unset;
either way it was called once more.  The body itself never assigns
`self.service` (true of every method in the class), which the embedding
makes structural: a body is an `ApiM`, which can only extend the trace. -/
def runAuthed {α : Type} (env : GmailEnv) (body : ApiM α) (st : AdapterState) :
    Except String α × AdapterState :=
  match st.service with
  | some _ =>
    match body st.trace with
    | (r, tr) => (r, ⟨st.service, st.authCalls, tr⟩)
  | none =>
    match env.authResult with
    | Except.ok _ =>
      match body st.trace with
      | (r, tr) => (r, ⟨some (), st.authCalls + 1, tr⟩)
    | Except.error e => (Except.error e, ⟨none, st.authCalls + 1, st.trace⟩)

/-! ## GmailTool methods (from `src/servers/server__v2.py`) -/

/-- The `for msg in results.get("messages", [])` loop of
`GmailTool.list_emails`: one metadata fetch per listed id, assembling the
summary dict appended for each. -/
def listEmailsLoop (env : GmailEnv) : List MsgRef → ApiM (List Json)
  | [] => ApiM.pure []
  | msg :: rest =>
    ApiM.bind (ApiM.call (ApiCall.messagesGet msg.id "metadata")
        (env.messagesGet msg.id "metadata")) fun email_data =>
    ApiM.bind (listEmailsLoop env rest) fun tail =>
    ApiM.pure (Json.jobj
      [("id", Json.jstr msg.id),
       ("subject", Json.jstr (headerGet email_data.payload.headers "Subject")),
       ("from", Json.jstr (headerGet email_data.payload.headers "From")),
       ("date", Json.jstr (headerGet email_data.payload.headers "Date")),
       ("snippet", Json.jstr email_data.snippet)] :: tail)

namespace GmailTool

/-- `GmailTool.list_emails(query, max_results)`. -/
def list_emails (env : GmailEnv) (query : String) (max_results : Nat) :
    AdapterState → Except String (List Json) × AdapterState :=
  runAuthed env
    (ApiM.bind (ApiM.call (ApiCall.messagesList query max_results)
        (env.messagesList query max_results))
      (listEmailsLoop env))

/-- The loop of `GmailTool._get_body` over `payload["parts"]`: take the
first `text/plain` part whose `body.data` is non-empty (`if data:` guards
the assignment and the `break`), decode it. -/
def getBodyLoop : List Payload → Except String String
  | [] => Except.ok ""
  | part :: rest =>
    if part.mimeType = "text/plain" then
      if part.data ≠ "" then pyDecodeBodyData part.data
      else getBodyLoop rest
    else getBodyLoop rest

/-- `GmailTool._get_body(payload)`. -/
def get_body (payload : Payload) : Except String String :=
  match payload.parts with
  | some parts => getBodyLoop parts
  | none =>
    if payload.mimeType = "text/plain" then
      if payload.data ≠ "" then pyDecodeBodyData payload.data
      else Except.ok ""
    else Except.ok ""

/-- `GmailTool.get_email(message_id)`. -/
def get_email (env : GmailEnv) (message_id : String) :
    AdapterState → Except String Json × AdapterState :=
  runAuthed env
    (ApiM.bind (ApiM.call (ApiCall.messagesGet message_id "full")
        (env.messagesGet message_id "full")) fun msg =>
      ApiM.bind (ApiM.ofExcept (get_body msg.payload)) fun body =>
      ApiM.pure (Json.jobj
        [("id", Json.jstr message_id),
         ("subject", Json.jstr (headerGet msg.payload.headers "Subject")),
         ("from", Json.jstr (headerGet msg.payload.headers "From")),
         ("to", Json.jstr (headerGet msg.payload.headers "To")),
         ("date", Json.jstr (headerGet msg.payload.headers "Date")),
         ("body", Json.jstr body)]))

/-- `GmailTool.delete_email(message_id)`: one `messages().trash` call, then
the literal dict `{"status": "deleted", "id": message_id}`. -/
def delete_email (env : GmailEnv) (message_id : String) :
    AdapterState → Except String Json × AdapterState :=
  runAuthed env
    (ApiM.bind (ApiM.call (ApiCall.messagesTrash message_id)
        (env.messagesTrash message_id)) fun _ =>
      ApiM.pure (Json.jobj
        [("status", Json.jstr "deleted"), ("id", Json.jstr message_id)]))

/-- Model of `MIMEText(body)` with `to` and `subject` headers, rendered by
`message.as_bytes()` (external `email` library; modelled as the header
block, a blank line, and the body). -/
def mimeTextRender (to_addr subject body : String) : String :=
  "Content-Type: text/plain; charset=\"us-ascii\"\nMIME-Version: 1.0\n"
    ++ "Content-Transfer-Encoding: 7bit\nto: " ++ to_addr ++ "\nsubject: "
    ++ subject ++ "\n\n" ++ body

/-- `GmailTool.send_email(to, subject, body)` (the `to` parameter is named
`to_addr` here because `to` is reserved). -/
def send_email (env : GmailEnv) (to_addr subject body : String) :
    AdapterState → Except String Json × AdapterState :=
  runAuthed env
    (let raw := pyUrlsafeB64encode
      (utf8Encode (mimeTextRender to_addr subject body))
     ApiM.call (ApiCall.messagesSend raw) (env.messagesSend raw))

end GmailTool

/-- The three dict literals `GmailTool.delete_emails_in_label` can return,
one constructor per `return` statement. -/
inductive DelResult where
  | errorNotFound (label_name : String) : DelResult
  | noEmails : DelResult
  | deleted (count : Nat) (label : String) : DelResult
deriving DecidableEq

/-- The f-string `f"Label '{label_name}' not found"`. -/
def labelNotFoundMsg (label_name : String) : String :=
  "Label " ++ sq ++ label_name ++ sq ++ " not found"

/-- The Python dict each `DelResult` constructor stands for. -/
def DelResult.toJson : DelResult → Json
  | .errorNotFound n => Json.jobj [("error", Json.jstr (labelNotFoundMsg n))]
  | .noEmails =>
    Json.jobj [("status", Json.jstr "no emails found under this label")]
  | .deleted c l =>
    Json.jobj [("status", Json.jstr "deleted"), ("count", Json.jnat c),
      ("label", Json.jstr l)]

/-- The key list of the Python dict each `DelResult` stands for. -/
def DelResult.keys : DelResult → List String
  | .errorNotFound _ => ["error"]
  | .noEmails => ["status"]
  | .deleted _ _ => ["status", "count", "label"]

namespace GmailTool

/-- Body of `GmailTool.delete_emails_in_label(label_name)` after the auth
guard.  Note the Python guard `if not label_id:` treats an empty-string id
like a missing one. -/
def delete_emails_in_label_body (env : GmailEnv) (label_name : String) :
    ApiM DelResult :=
  ApiM.bind (ApiM.call ApiCall.labelsList env.labelsList) fun labels =>
    let label_id := (labels.find?
      (fun l => pyLower l.name == pyLower label_name)).map Label.id
    match label_id with
    | none => ApiM.pure (DelResult.errorNotFound label_name)
    | some lid =>
      if lid = "" then ApiM.pure (DelResult.errorNotFound label_name)
      else
        ApiM.bind (ApiM.call (ApiCall.messagesListByLabel lid)
            (env.messagesListByLabel lid)) fun messages =>
        if messages = [] then ApiM.pure DelResult.noEmails
        else
          let message_ids := messages.map MsgRef.id
          ApiM.bind (ApiM.call (ApiCall.batchModify message_ids)
              (env.batchModify message_ids)) fun _ =>
          ApiM.pure (DelResult.deleted message_ids.length label_name)

/-- `GmailTool.delete_emails_in_label(label_name)`. -/
def delete_emails_in_label (env : GmailEnv) (label_name : String) :
    AdapterState → Except String DelResult × AdapterState :=
  runAuthed env (delete_emails_in_label_body env label_name)

/-- `GmailTool.list_labels()`. -/
def list_labels (env : GmailEnv) :
    AdapterState → Except String (List Label) × AdapterState :=
  runAuthed env (ApiM.call ApiCall.labelsList env.labelsList)

/-- `GmailTool.create_label(name, label_list_visibility, message_list_visibility)`
(the Python defaults are `"labelShow"` and `"show"`; callers pass them
explicitly here). -/
def create_label (env : GmailEnv)
    (name label_list_visibility message_list_visibility : String) :
    AdapterState → Except String Json × AdapterState :=
  runAuthed env
    (ApiM.call
      (ApiCall.labelsCreate name label_list_visibility message_list_visibility)
      (env.labelsCreate name label_list_visibility message_list_visibility))

/-- One conditional entry of the `label_obj` dict built by
`GmailTool.update_label`: `if v: label_obj[key] = v` (so `None` and the
empty string are both omitted). -/
def optLabelField (key : String) (v : Option String) : List (String × Json) :=
  match v with
  | some s => if s ≠ "" then [(key, Json.jstr s)] else []
  | none => []

/-- `GmailTool.update_label(label_id, new_name, label_list_visibility,
message_list_visibility)`. -/
def update_label (env : GmailEnv) (label_id : String)
    (new_name label_list_visibility message_list_visibility : Option String) :
    AdapterState → Except String Json × AdapterState :=
  runAuthed env
    (let label_obj := optLabelField "name" new_name
        ++ optLabelField "labelListVisibility" label_list_visibility
        ++ optLabelField "messageListVisibility" message_list_visibility
     ApiM.call (ApiCall.labelsUpdate label_id)
       (env.labelsUpdate label_id label_obj))

/-- `GmailTool.delete_label(label_id)`. -/
def delete_label (env : GmailEnv) (label_id : String) :
    AdapterState → Except String Json × AdapterState :=
  runAuthed env
    (ApiM.bind (ApiM.call (ApiCall.labelsDelete label_id)
        (env.labelsDelete label_id)) fun _ =>
      ApiM.pure (Json.jobj
        [("status", Json.jstr "deleted"), ("id", Json.jstr label_id)]))

end GmailTool

/-- Model of the standalone script `src/servers/checks.py`: it builds a
service handle directly from `token.json` and issues one permanent
`users().messages().delete` call for the hard-coded message id. -/
def checksDeleteScript (env : GmailEnv) (message_id : String) :
    Except String Unit × List ApiCall :=
  ApiM.call (ApiCall.messagesDelete message_id) (env.messagesDelete message_id) []

/-! ## Terminal tool -/

/-- What the `subprocess.run(command, shell=True, capture_output=True,
text=True)` call yields when it completes. -/
structure CompletedProcess where
  stdout : String
  stderr : String

/-- `run_command` from `server__v2.py` (and, token for token, from
`build/lib/server_stdio.py`): `subprocessRun` gives the behavior of the
`subprocess.run` invocation on each command, with `Except.error e`
modelling it raising an exception whose `str` is `e`.  The Python
`result.stdout or result.stderr` returns `stdout` when non-empty, else
`stderr`; the `except` clause returns `str(e)`. -/
def run_command (subprocessRun : String → Except String CompletedProcess)
    (command : String) : String :=
  match subprocessRun command with
  | Except.ok result =>
    if result.stdout ≠ "" then result.stdout else result.stderr
  | Except.error e => e

/-! ## MCP tool layer (the `@mcp.tool()` handlers) -/

/-- Registered tool `list_emails`: wraps the adapter call in `try/except`,
serializing with `json.dumps(..., indent=2)` and converting any exception
to an `"Error: ..."` string. -/
def tool_list_emails (env : GmailEnv) (query : String) (max_results : Nat)
    (st : AdapterState) : String × AdapterState :=
  match GmailTool.list_emails env query max_results st with
  | (Except.ok emails, st2) => (pyJsonDumps (Json.jarr emails), st2)
  | (Except.error e, st2) => ("Error: " ++ e, st2)

/-- Registered tool `get_email`. -/
def tool_get_email (env : GmailEnv) (message_id : String)
    (st : AdapterState) : String × AdapterState :=
  match GmailTool.get_email env message_id st with
  | (Except.ok email, st2) => (pyJsonDumps email, st2)
  | (Except.error e, st2) => ("Error: " ++ e, st2)

/-- Registered tool `get_unread_emails`:
`gmail.list_emails("is:unread", 20)` inside the same wrapper. -/
def tool_get_unread_emails (env : GmailEnv)
    (st : AdapterState) : String × AdapterState :=
  match GmailTool.list_emails env "is:unread" 20 st with
  | (Except.ok emails, st2) => (pyJsonDumps (Json.jarr emails), st2)
  | (Except.error e, st2) => ("Error: " ++ e, st2)

/-- Registered tool `send_email`. -/
def tool_send_email (env : GmailEnv) (to_addr subject body : String)
    (st : AdapterState) : String × AdapterState :=
  match GmailTool.send_email env to_addr subject body st with
  | (Except.ok result, st2) => (pyJsonDumps result, st2)
  | (Except.error e, st2) => ("Error: " ++ e, st2)

/-- Registered tool `delete_email`. -/
def tool_delete_email (env : GmailEnv) (message_id : String)
    (st : AdapterState) : String × AdapterState :=
  match GmailTool.delete_email env message_id st with
  | (Except.ok result, st2) => (pyJsonDumps result, st2)
  | (Except.error e, st2) => ("Error: " ++ e, st2)

/-- Registered tool `delete_emails_in_label` (the wrapped registration at
module level, before the `# ===== LABELS =====` block). -/
def tool_delete_emails_in_label (env : GmailEnv) (label_name : String)
    (st : AdapterState) : String × AdapterState :=
  match GmailTool.delete_emails_in_label env label_name st with
  | (Except.ok result, st2) => (pyJsonDumps result.toJson, st2)
  | (Except.error e, st2) => ("Error: " ++ e, st2)

/-- Registered tool `gmail.list_labels`: no `try/except` — the handler
returns the adapter value and lets any exception propagate. -/
def toolG_list_labels (env : GmailEnv)
    (st : AdapterState) : Except String (List Label) × AdapterState :=
  GmailTool.list_labels env st

/-- Registered tool `gmail.create_label`: unwrapped; the handler passes
only `name`, so the Python defaults `"labelShow"` / `"show"` apply. -/
def toolG_create_label (env : GmailEnv) (name : String)
    (st : AdapterState) : Except String Json × AdapterState :=
  GmailTool.create_label env name "labelShow" "show" st

/-- Registered tool `gmail.update_label`: unwrapped; passes `new_name`
only, leaving both visibility arguments `None`. -/
def toolG_update_label (env : GmailEnv) (label_id : String)
    (new_name : Option String)
    (st : AdapterState) : Except String Json × AdapterState :=
  GmailTool.update_label env label_id new_name none none st

/-- Registered tool `gmail.delete_label`: unwrapped. -/
def toolG_delete_label (env : GmailEnv) (label_id : String)
    (st : AdapterState) : Except String Json × AdapterState :=
  GmailTool.delete_label env label_id st

/-- Registered tool `gmail.delete_emails_in_label` (the second, unwrapped
registration inside the `# ===== LABELS =====` block). -/
def toolG_delete_emails_in_label (env : GmailEnv) (label_name : String)
    (st : AdapterState) : Except String DelResult × AdapterState :=
  GmailTool.delete_emails_in_label env label_name st

/-- The attribute names defined in the body of `class GmailTool`
(`server__v2.py`, lines 61-287). -/
def gmailToolMethods : List String :=
  ["__init__", "auth", "list_emails", "get_email", "_get_body",
   "delete_email", "send_email", "delete_emails_in_label", "list_labels",
   "create_label", "update_label", "delete_label"]

/-- `str` of the `AttributeError` Python raises when an attribute lookup on
a `GmailTool` instance fails. -/
def gmailAttributeError (attr : String) : String :=
  sq ++ "GmailTool" ++ sq ++ " object has no attribute " ++ sq ++ attr ++ sq

/-- Evaluating `gmail.<attr>(...)` for an attribute the class does not
define: Python raises `AttributeError` during the lookup, before any call
is made, so the state is untouched. -/
def callMissingMethod (attr : String)
    (st : AdapterState) : Except String Json × AdapterState :=
  (Except.error (gmailAttributeError attr), st)

/-- Registered tool `gmail.list_drafts`: the body `return
gmail.list_drafts()` looks up `list_drafts` on the adapter instance. -/
def toolG_list_drafts (st : AdapterState) :
    Except String Json × AdapterState :=
  callMissingMethod "list_drafts" st

/-- Registered tool `gmail.get_draft`. -/
def toolG_get_draft (draft_id : String) (st : AdapterState) :
    Except String Json × AdapterState :=
  callMissingMethod "get_draft" st

/-- Registered tool `gmail.create_draft`. -/
def toolG_create_draft (to_addr subject body : String) (st : AdapterState) :
    Except String Json × AdapterState :=
  callMissingMethod "create_draft" st

/-- Registered tool `gmail.update_draft`. -/
def toolG_update_draft (draft_id : String)
    (to_addr subject body : Option String) (st : AdapterState) :
    Except String Json × AdapterState :=
  callMissingMethod "update_draft" st

/-! ## Operation sequences over the adapter -/

/-- One call to a Gmail operation of the adapter, with its arguments. -/
inductive GmailOp where
  | listEmails (query : String) (max_results : Nat) : GmailOp
  | getEmail (message_id : String) : GmailOp
  | sendEmail (to_addr subject body : String) : GmailOp
  | deleteEmail (message_id : String) : GmailOp
  | deleteEmailsInLabel (label_name : String) : GmailOp
  | listLabels : GmailOp
  | createLabel (name llv mlv : String) : GmailOp
  | updateLabel (label_id : String) (new_name llv mlv : Option String) : GmailOp
  | deleteLabel (label_id : String) : GmailOp

/-- Run one adapter operation, keeping the state it leaves behind. -/
def runOp (env : GmailEnv) (op : GmailOp) (st : AdapterState) : AdapterState :=
  match op with
  | .listEmails q mr => (GmailTool.list_emails env q mr st).2
  | .getEmail i => (GmailTool.get_email env i st).2
  | .sendEmail t s b => (GmailTool.send_email env t s b st).2
  | .deleteEmail i => (GmailTool.delete_email env i st).2
  | .deleteEmailsInLabel n => (GmailTool.delete_emails_in_label env n st).2
  | .listLabels => (GmailTool.list_labels env st).2
  | .createLabel n a b => (GmailTool.create_label env n a b st).2
  | .updateLabel i n a b => (GmailTool.update_label env i n a b st).2
  | .deleteLabel i => (GmailTool.delete_label env i st).2

/-- Run a sequence of adapter operations in order. -/
def runOps (env : GmailEnv) (ops : List GmailOp) (st : AdapterState) :
    AdapterState :=
  ops.foldl (fun s op => runOp env op s) st

/-! ## Concrete environments and states used by witnesses and
counterexamples -/

/-- A fully successful environment: empty query results, one label
`Work`/`L1`, every call succeeds. -/
def okEnv : GmailEnv where
  authResult := Except.ok ()
  messagesList := fun _ _ => Except.ok []
  messagesGet := fun _ _ => Except.ok ⟨Payload.mk "text/plain" [] "" none, ""⟩
  messagesTrash := fun _ => Except.ok ()
  messagesSend := fun _ => Except.ok (Json.jobj [("id", Json.jstr "m1")])
  messagesListByLabel := fun _ => Except.ok []
  batchModify := fun _ => Except.ok ()
  labelsList := Except.ok [⟨"L1", "Work"⟩]
  labelsCreate := fun _ _ _ => Except.ok (Json.jobj [])
  labelsUpdate := fun _ _ => Except.ok (Json.jobj [])
  labelsDelete := fun _ => Except.ok ()
  messagesDelete := fun _ => Except.ok ()

/-- An already-authenticated adapter state with an empty trace. -/
def authedState : AdapterState := ⟨some (), 1, []⟩

/-! ## Shared lemmas about the auth guard -/

/-- With the service handle cached, `runAuthed` keeps it and does not call
`auth()` again; only the trace can change. -/
theorem runAuthed_preserves {α : Type} (env : GmailEnv) (body : ApiM α)
    (st : AdapterState) (h : st.service = some ()) :
    (runAuthed env body st).2.service = some () ∧
      (runAuthed env body st).2.authCalls = st.authCalls := by
  rcases hb : body st.trace with ⟨r, tr⟩
  simp [runAuthed, h, hb]

/-- From the unauthenticated state with a succeeding `auth()`, `runAuthed`
calls `auth()` exactly once and caches the handle. -/
theorem runAuthed_first {α : Type} (env : GmailEnv) (body : ApiM α)
    (st : AdapterState) (h : st.service = none)
    (ha : env.authResult = Except.ok ()) :
    (runAuthed env body st).2.service = some () ∧
      (runAuthed env body st).2.authCalls = st.authCalls + 1 := by
  rcases hb : body st.trace with ⟨r, tr⟩
  simp [runAuthed, h, ha, hb]

/-- Whatever branch the auth guard takes, a result the method returns
normally is the result of its body run on the entry trace. -/
theorem runAuthed_ok {α : Type} (env : GmailEnv) (body : ApiM α)
    (st : AdapterState) (a : α)
    (h : (runAuthed env body st).1 = Except.ok a) :
    (body st.trace).1 = Except.ok a := by
  rcases hb : body st.trace with ⟨r, tr⟩
  rcases hs : st.service with _ | u
  · rcases ha : env.authResult with e | u2
    · simp [runAuthed, hs, ha, hb] at h
    · simp only [runAuthed, hs, ha, hb] at h
      exact h
  · simp only [runAuthed, hs, hb] at h
    exact h

/-- Every adapter operation preserves a cached handle and adds no `auth()`
call. -/
theorem runOp_preserves (env : GmailEnv) (op : GmailOp) (st : AdapterState)
    (h : st.service = some ()) :
    (runOp env op st).service = some () ∧
      (runOp env op st).authCalls = st.authCalls := by
  cases op <;> exact runAuthed_preserves env _ st h

/-- Every adapter operation, run unauthenticated with a succeeding
`auth()`, authenticates exactly once. -/
theorem runOp_first (env : GmailEnv) (op : GmailOp) (st : AdapterState)
    (h : st.service = none) (ha : env.authResult = Except.ok ()) :
    (runOp env op st).service = some () ∧
      (runOp env op st).authCalls = st.authCalls + 1 := by
  cases op <;> exact runAuthed_first env _ st h ha

/-- A sequence of operations on an authenticated adapter never calls
`auth()`. -/
theorem runOps_preserves (env : GmailEnv) (ops : List GmailOp)
    (st : AdapterState) (h : st.service = some ()) :
    (runOps env ops st).service = some () ∧
      (runOps env ops st).authCalls = st.authCalls := by
  induction ops generalizing st with
  | nil => exact ⟨h, rfl⟩
  | cons op rest ih =>
    have h1 := runOp_preserves env op st h
    have h2 := ih (runOp env op st) h1.1
    exact ⟨h2.1, h2.2.trans h1.2⟩

/-! ## Claim theorems -/

/-- C2: for every command, `run_command` returns a string and never lets an
exception past its boundary (it is a total `String`-valued function): when
the `subprocess.run` call completes it returns the captured stdout if that
is non-empty and the captured stderr otherwise, and when the invocation
raises it returns the string representation of the exception. -/
theorem C2_run_command_total
    (subprocessRun : String → Except String CompletedProcess)
    (command : String) :
    (∀ result, subprocessRun command = Except.ok result →
      run_command subprocessRun command =
        (if result.stdout ≠ "" then result.stdout else result.stderr)) ∧
    (∀ e, subprocessRun command = Except.error e →
      run_command subprocessRun command = e) := by
  constructor
  · intro result h
    simp [run_command, h]
  · intro e h
    simp [run_command, h]

/-- Witness for C2: a completing command with non-empty stdout, a
completing command with empty stdout, and a raising invocation. -/
theorem C2_run_command_total_witness :
    run_command (fun _ => Except.ok ⟨"out", "err"⟩) "ls" = "out" ∧
    run_command (fun _ => Except.ok ⟨"", "err"⟩) "ls" = "err" ∧
    run_command (fun _ => Except.error "boom") "ls" = "boom" := by
  refine ⟨?_, ?_, ?_⟩
  · have h := (C2_run_command_total (fun _ => Except.ok ⟨"out", "err"⟩)
      "ls").1 ⟨"out", "err"⟩ rfl
    simpa using h
  · have h := (C2_run_command_total (fun _ => Except.ok ⟨"", "err"⟩)
      "ls").1 ⟨"", "err"⟩ rfl
    simpa using h
  · exact (C2_run_command_total (fun _ => Except.error "boom") "ls").2
      "boom" rfl

/-- C3: for a `GmailTool` adapter starting unauthenticated (`service =
None`) whose `auth()` succeeds, running any non-empty sequence of Gmail
operations calls `auth()` exactly once in total — the first operation
triggers it, and every later operation reuses the cached handle. -/
theorem C3_auth_called_exactly_once (env : GmailEnv)
    (ha : env.authResult = Except.ok ()) (ops : List GmailOp)
    (hne : ops ≠ []) :
    (runOps env ops initialAdapterState).authCalls = 1 ∧
      (runOps env ops initialAdapterState).service = some () := by
  cases ops with
  | nil => exact absurd rfl hne
  | cons op rest =>
    have h1 := runOp_first env op initialAdapterState rfl ha
    have h2 := runOps_preserves env rest (runOp env op initialAdapterState)
      h1.1
    have h3 : runOps env (op :: rest) initialAdapterState
        = runOps env rest (runOp env op initialAdapterState) := rfl
    rw [h3, h2.2, h1.2]
    exact ⟨rfl, h2.1⟩

/-- Witness for C3: a concrete three-operation sequence on a fresh adapter
authenticates exactly once. -/
theorem C3_auth_called_exactly_once_witness :
    (runOps okEnv [GmailOp.listLabels, GmailOp.listEmails "" 10,
      GmailOp.deleteEmail "m1"] initialAdapterState).authCalls = 1 ∧
    (runOps okEnv [GmailOp.listLabels, GmailOp.listEmails "" 10,
      GmailOp.deleteEmail "m1"] initialAdapterState).service = some () :=
  C3_auth_called_exactly_once okEnv rfl _ (by simp)

/-- C7: the four registered draft tools delegate to adapter methods that
`class GmailTool` never defines, so every invocation raises
`AttributeError` (carried here as the raised error string) instead of
producing a result, leaving the adapter state untouched. -/
theorem C7_draft_tools_always_raise (st : AdapterState)
    (draft_id to_addr subject body : String) :
    ("list_drafts" ∉ gmailToolMethods ∧ "get_draft" ∉ gmailToolMethods ∧
      "create_draft" ∉ gmailToolMethods ∧
      "update_draft" ∉ gmailToolMethods) ∧
    toolG_list_drafts st
      = (Except.error (gmailAttributeError "list_drafts"), st) ∧
    toolG_get_draft draft_id st
      = (Except.error (gmailAttributeError "get_draft"), st) ∧
    toolG_create_draft to_addr subject body st
      = (Except.error (gmailAttributeError "create_draft"), st) ∧
    toolG_update_draft draft_id (some to_addr) (some subject) (some body) st
      = (Except.error (gmailAttributeError "update_draft"), st) :=
  ⟨by decide, rfl, rfl, rfl, rfl⟩

/-- C9: the `get_unread_emails` tool handler is extensionally the
`list_emails` tool handler at query `"is:unread"` and cap `20`: identical
output string and identical final adapter state, for every environment and
starting state. -/
theorem C9_get_unread_emails_is_list_emails (env : GmailEnv)
    (st : AdapterState) :
    tool_get_unread_emails env st = tool_list_emails env "is:unread" 20 st :=
  rfl

/-- C4: the two delete variants disagree.  The server adapter's
`delete_email` issues exactly one reversible `messages().trash` call and
returns the dict `{"status": "deleted", "id": message_id}`; the standalone
`checks.py` script issues exactly one permanent `messages().delete` call;
neither performs the other's operation. -/
theorem C4_delete_variants_disagree (env : GmailEnv) (message_id : String)
    (st : AdapterState) (h : st.service = some ())
    (ht : env.messagesTrash message_id = Except.ok ()) :
    (GmailTool.delete_email env message_id st).1 =
      Except.ok (Json.jobj [("status", Json.jstr "deleted"),
        ("id", Json.jstr message_id)]) ∧
    (GmailTool.delete_email env message_id st).2.trace
      = st.trace ++ [ApiCall.messagesTrash message_id] ∧
    (∀ i, ApiCall.messagesDelete i ∉
      (GmailTool.delete_email env message_id st).2.trace.drop
        st.trace.length) ∧
    (checksDeleteScript env message_id).2
      = [ApiCall.messagesDelete message_id] ∧
    (∀ i, ApiCall.messagesTrash i ∉ (checksDeleteScript env message_id).2) := by
  refine ⟨?_, ?_, ?_, ?_, ?_⟩
  · simp [GmailTool.delete_email, runAuthed, h, ht, ApiM.bind, ApiM.call,
      ApiM.pure]
  · simp [GmailTool.delete_email, runAuthed, h, ht, ApiM.bind, ApiM.call,
      ApiM.pure]
  · intro i
    simp [GmailTool.delete_email, runAuthed, h, ht, ApiM.bind, ApiM.call,
      ApiM.pure, List.drop_left]
  · simp [checksDeleteScript, ApiM.call]
  · intro i
    simp [checksDeleteScript, ApiM.call]

/-- Witness for C4 at a concrete environment and message id. -/
theorem C4_delete_variants_disagree_witness :
    (GmailTool.delete_email okEnv "m1" authedState).1 =
      Except.ok (Json.jobj [("status", Json.jstr "deleted"),
        ("id", Json.jstr "m1")]) ∧
    (checksDeleteScript okEnv "m1").2 = [ApiCall.messagesDelete "m1"] :=
  ⟨(C4_delete_variants_disagree okEnv "m1" authedState rfl rfl).1,
   (C4_delete_variants_disagree okEnv "m1" authedState rfl rfl).2.2.2.1⟩

/-- C5: when no listed label matches the requested name case-insensitively,
`delete_emails_in_label` returns the dict
`{"error": "Label '<label_name>' not found"}` without raising, makes only
one `labels().list` call, and issues no message-list and no batch-modify
call in that invocation. -/
theorem C5_delete_emails_in_label_not_found (env : GmailEnv)
    (label_name : String) (st : AdapterState) (hs : st.service = some ())
    (ls : List Label) (hl : env.labelsList = Except.ok ls)
    (hnf : ∀ l ∈ ls, pyLower l.name ≠ pyLower label_name) :
    (GmailTool.delete_emails_in_label env label_name st).1 =
      Except.ok (DelResult.errorNotFound label_name) ∧
    DelResult.toJson (DelResult.errorNotFound label_name) =
      Json.jobj [("error",
        Json.jstr ("Label " ++ sq ++ label_name ++ sq ++ " not found"))] ∧
    (GmailTool.delete_emails_in_label env label_name st).2.trace
      = st.trace ++ [ApiCall.labelsList] ∧
    (∀ lid, ApiCall.messagesListByLabel lid ∉
      (GmailTool.delete_emails_in_label env label_name st).2.trace.drop
        st.trace.length) ∧
    (∀ q mr, ApiCall.messagesList q mr ∉
      (GmailTool.delete_emails_in_label env label_name st).2.trace.drop
        st.trace.length) ∧
    (∀ ids, ApiCall.batchModify ids ∉
      (GmailTool.delete_emails_in_label env label_name st).2.trace.drop
        st.trace.length) := by
  have hfind : ls.find? (fun l => pyLower l.name == pyLower label_name)
      = none := by
    rw [List.find?_eq_none]
    intro l hlmem
    simpa using hnf l hlmem
  refine ⟨?_, ?_, ?_, ?_, ?_, ?_⟩ <;>
    simp [GmailTool.delete_emails_in_label,
      GmailTool.delete_emails_in_label_body, runAuthed, hs, hl, hfind,
      ApiM.bind, ApiM.call, ApiM.pure, DelResult.toJson, labelNotFoundMsg,
      List.drop_left]

/-- Witness for C5: the single label `Work` does not match
`NoSuchLabel`. -/
theorem C5_delete_emails_in_label_not_found_witness :
    (GmailTool.delete_emails_in_label okEnv "NoSuchLabel" authedState).1 =
      Except.ok (DelResult.errorNotFound "NoSuchLabel") ∧
    (GmailTool.delete_emails_in_label okEnv "NoSuchLabel" authedState).2.trace
      = [ApiCall.labelsList] :=
  ⟨(C5_delete_emails_in_label_not_found okEnv "NoSuchLabel" authedState rfl
      [⟨"L1", "Work"⟩] rfl (by decide)).1,
   (C5_delete_emails_in_label_not_found okEnv "NoSuchLabel" authedState rfl
      [⟨"L1", "Work"⟩] rfl (by decide)).2.2.1⟩

/-- Environment whose `labels().list` endpoint raises `boom`. -/
def labelsBoomEnv : GmailEnv := { okEnv with labelsList := Except.error "boom" }

/-- Environment whose `messages().trash` endpoint raises `boom`. -/
def trashBoomEnv : GmailEnv :=
  { okEnv with messagesTrash := fun _ => Except.error "boom" }

/-- C1 counterexample: the registered tool `gmail.list_labels` has no
catch-all — with the adapter call raising `boom`, the handler propagates
the exception instead of returning an `"Error: ..."` string result. -/
theorem C1_counterexample_list_labels_propagates :
    (toolG_list_labels labelsBoomEnv authedState).1 = Except.error "boom" :=
  rfl

/-- C1 amended: the catch-all error policy holds exactly for the six
JSON-string tools (`list_emails`, `get_email`, `get_unread_emails`,
`send_email`, `delete_email` and the wrapped `delete_emails_in_label`),
which turn any adapter exception into an `"Error: "`-prefixed string;
the four label tools and the second `delete_emails_in_label` registration
are unwrapped and propagate adapter exceptions unchanged, and the draft
tools raise on every invocation. -/
theorem C1_tool_layer_error_policy :
    (∀ env q mr st e,
      (GmailTool.list_emails env q mr st).1 = Except.error e →
      (tool_list_emails env q mr st).1 = "Error: " ++ e) ∧
    (∀ env i st e, (GmailTool.get_email env i st).1 = Except.error e →
      (tool_get_email env i st).1 = "Error: " ++ e) ∧
    (∀ env st e,
      (GmailTool.list_emails env "is:unread" 20 st).1 = Except.error e →
      (tool_get_unread_emails env st).1 = "Error: " ++ e) ∧
    (∀ env t s b st e,
      (GmailTool.send_email env t s b st).1 = Except.error e →
      (tool_send_email env t s b st).1 = "Error: " ++ e) ∧
    (∀ env i st e, (GmailTool.delete_email env i st).1 = Except.error e →
      (tool_delete_email env i st).1 = "Error: " ++ e) ∧
    (∀ env n st e,
      (GmailTool.delete_emails_in_label env n st).1 = Except.error e →
      (tool_delete_emails_in_label env n st).1 = "Error: " ++ e) ∧
    (∀ env st e, (GmailTool.list_labels env st).1 = Except.error e →
      (toolG_list_labels env st).1 = Except.error e) ∧
    (∀ env n st e,
      (GmailTool.create_label env n "labelShow" "show" st).1
        = Except.error e →
      (toolG_create_label env n st).1 = Except.error e) ∧
    (∀ env i nn st e,
      (GmailTool.update_label env i nn none none st).1 = Except.error e →
      (toolG_update_label env i nn st).1 = Except.error e) ∧
    (∀ env i st e, (GmailTool.delete_label env i st).1 = Except.error e →
      (toolG_delete_label env i st).1 = Except.error e) ∧
    (∀ env n st e,
      (GmailTool.delete_emails_in_label env n st).1 = Except.error e →
      (toolG_delete_emails_in_label env n st).1 = Except.error e) ∧
    (∀ st,
      (toolG_list_drafts st).1
        = Except.error (gmailAttributeError "list_drafts")) := by
  refine ⟨?_, ?_, ?_, ?_, ?_, ?_, ?_, ?_, ?_, ?_, ?_, ?_⟩
  · intro env q mr st e h
    rcases hc : GmailTool.list_emails env q mr st with ⟨r, st2⟩
    rw [hc] at h
    cases r with
    | ok v => exact absurd h (by simp)
    | error e2 =>
      simp at h
      subst h
      simp [tool_list_emails, hc]
  · intro env i st e h
    rcases hc : GmailTool.get_email env i st with ⟨r, st2⟩
    rw [hc] at h
    cases r with
    | ok v => exact absurd h (by simp)
    | error e2 =>
      simp at h
      subst h
      simp [tool_get_email, hc]
  · intro env st e h
    rcases hc : GmailTool.list_emails env "is:unread" 20 st with ⟨r, st2⟩
    rw [hc] at h
    cases r with
    | ok v => exact absurd h (by simp)
    | error e2 =>
      simp at h
      subst h
      simp [tool_get_unread_emails, hc]
  · intro env t s b st e h
    rcases hc : GmailTool.send_email env t s b st with ⟨r, st2⟩
    rw [hc] at h
    cases r with
    | ok v => exact absurd h (by simp)
    | error e2 =>
      simp at h
      subst h
      simp [tool_send_email, hc]
  · intro env i st e h
    rcases hc : GmailTool.delete_email env i st with ⟨r, st2⟩
    rw [hc] at h
    cases r with
    | ok v => exact absurd h (by simp)
    | error e2 =>
      simp at h
      subst h
      simp [tool_delete_email, hc]
  · intro env n st e h
    rcases hc : GmailTool.delete_emails_in_label env n st with ⟨r, st2⟩
    rw [hc] at h
    cases r with
    | ok v => exact absurd h (by simp)
    | error e2 =>
      simp at h
      subst h
      simp [tool_delete_emails_in_label, hc]
  · intro env st e h
    exact h
  · intro env n st e h
    exact h
  · intro env i nn st e h
    exact h
  · intro env i st e h
    exact h
  · intro env n st e h
    exact h
  · intro st
    rfl

/-- Witness for the C1 amended statement: a wrapped tool converts a raising
adapter call into an error string. -/
theorem C1_tool_layer_error_policy_witness :
    (tool_delete_email trashBoomEnv "m1" authedState).1 = "Error: " ++ "boom" :=
  C1_tool_layer_error_policy.2.2.2.2.1 trashBoomEnv "m1" authedState "boom" rfl

/-- The part loop of `_get_body` is the first `text/plain` part with
non-empty data, decoded — an empty-data `text/plain` part does not stop
the walk, because the `break` sits under `if data:`. -/
theorem getBodyLoop_eq_find (ps : List Payload) :
    GmailTool.getBodyLoop ps =
      (match ps.find? (fun p => p.mimeType == "text/plain" && p.data != "")
        with
      | some p => pyDecodeBodyData p.data
      | none => Except.ok "") := by
  induction ps with
  | nil => rfl
  | cons p rest ih =>
    by_cases hm : p.mimeType = "text/plain"
    · by_cases hd : p.data = ""
      · simp [GmailTool.getBodyLoop, hm, hd, ih, List.find?_cons]
      · simp [GmailTool.getBodyLoop, hm, hd, List.find?_cons]
    · simp [GmailTool.getBodyLoop, hm, ih, List.find?_cons]

/-- C6 counterexample: a plain-text-only payload with the non-empty data
`"_w=="` — the single byte 0xFF, which `decode("utf-8", errors="ignore")`
drops — yields an EMPTY body, refuting "non-empty data implies non-empty
body". -/
theorem C6_counterexample_nonempty_data_empty_body :
    (Payload.mk "text/plain" [] "_w==" none).data ≠ "" ∧
    GmailTool.get_body (Payload.mk "text/plain" [] "_w==" none)
      = Except.ok "" := by
  refine ⟨by decide, ?_⟩
  have h1 : pyUrlsafeB64decode "_w==" = Except.ok [255] := by rfl
  have h2 : utf8DecodeIgnore [255] = [] := by
    simp [utf8DecodeIgnore, utf8Lookahead]
  simp [GmailTool.get_body, Payload.parts, Payload.mimeType, Payload.data,
    pyDecodeBodyData, h1, h2]

/-- C6 amended: `get_email` extracts the body through `_get_body`, a
depth-1 walk of the payload's parts that takes the FIRST part whose
mimeType is `text/plain` and whose body data is non-empty (an empty-data
`text/plain` part is skipped, not taken), base64url-decoding that data; a
multipart payload whose parts contain no `text/plain` part yields the
empty body; and a plain-text-only payload whose data DECODES to a
non-empty string yields that non-empty body. -/
theorem C6_get_body_first_text_plain :
    (∀ env message_id st msg s, st.service = some () →
      env.messagesGet message_id "full" = Except.ok msg →
      GmailTool.get_body msg.payload = Except.ok s →
      (GmailTool.get_email env message_id st).1 = Except.ok (Json.jobj
        [("id", Json.jstr message_id),
         ("subject", Json.jstr (headerGet msg.payload.headers "Subject")),
         ("from", Json.jstr (headerGet msg.payload.headers "From")),
         ("to", Json.jstr (headerGet msg.payload.headers "To")),
         ("date", Json.jstr (headerGet msg.payload.headers "Date")),
         ("body", Json.jstr s)])) ∧
    (∀ ps : List Payload, GmailTool.getBodyLoop ps =
      (match ps.find? (fun p => p.mimeType == "text/plain" && p.data != "")
        with
      | some p => pyDecodeBodyData p.data
      | none => Except.ok "")) ∧
    (∀ mime hdrs d ps, (∀ p ∈ ps, p.mimeType ≠ "text/plain") →
      GmailTool.get_body (Payload.mk mime hdrs d (some ps))
        = Except.ok "") ∧
    (∀ hdrs data s, pyDecodeBodyData data = Except.ok s → s ≠ "" →
      GmailTool.get_body (Payload.mk "text/plain" hdrs data none)
        = Except.ok s) := by
  refine ⟨?_, getBodyLoop_eq_find, ?_, ?_⟩
  · intro env message_id st msg s hs hm hb
    simp [GmailTool.get_email, runAuthed, hs, hm, hb, ApiM.bind, ApiM.call,
      ApiM.pure, ApiM.ofExcept]
  · intro mime hdrs d ps hp
    have hfind : ps.find?
        (fun p => p.mimeType == "text/plain" && p.data != "") = none := by
      rw [List.find?_eq_none]
      intro p hmem
      simp [hp p hmem]
    simp [GmailTool.get_body, Payload.parts, getBodyLoop_eq_find, hfind]
  · intro hdrs data s hdec hne
    by_cases hd : data = ""
    · subst hd
      have : pyUrlsafeB64decode "" = Except.ok [] := by rfl
      simp [pyDecodeBodyData, this, utf8DecodeIgnore] at hdec
      exact absurd hdec.symm hne
    · simp [GmailTool.get_body, Payload.parts, Payload.mimeType,
        Payload.data, hd, hdec]

/-- Witness for the C6 amended statement: data `"aGk="` decodes to `"hi"`,
so a plain-text-only payload carrying it yields the non-empty body
`"hi"`. -/
theorem C6_get_body_first_text_plain_witness :
    GmailTool.get_body (Payload.mk "text/plain" [] "aGk=" none)
      = Except.ok "hi" :=
  C6_get_body_first_text_plain.2.2.2 [] "aGk=" "hi"
    (by
      have h1 : pyUrlsafeB64decode "aGk=" = Except.ok [104, 105] := by rfl
      have h2 : utf8DecodeIgnore [104, 105] = ['h', 'i'] := by
        simp [utf8DecodeIgnore, utf8Lookahead]
      simp [pyDecodeBodyData, h1, h2])
    (by decide)

/-- Environment with the single label `Work`/`L1` holding two messages. -/
def labeledEnv : GmailEnv :=
  { okEnv with messagesListByLabel := fun lid =>
      if lid = "L1" then Except.ok [⟨"m1"⟩, ⟨"m2"⟩] else Except.ok [] }

/-- C8 counterexample: with label `Work` present but holding no messages,
`delete_emails_in_label("Work")` returns the one-key dict
`{"status": "no emails found under this label"}` — neither the
`{status, count, label}` shape nor the `{error}` shape. -/
theorem C8_counterexample_bare_status_shape :
    (GmailTool.delete_emails_in_label okEnv "Work" authedState).1
      = Except.ok DelResult.noEmails ∧
    DelResult.keys DelResult.noEmails ≠ ["status", "count", "label"] ∧
    DelResult.keys DelResult.noEmails ≠ ["error"] ∧
    DelResult.toJson DelResult.noEmails
      = Json.jobj [("status", Json.jstr "no emails found under this label")]
    := ⟨rfl, by decide, by decide, rfl⟩

/-- C8 amended: every normal return of `delete_emails_in_label` has one of
exactly three dict shapes — `{status, count, label}` with the count equal
to the number of message ids listed under the resolved label and the label
echoing the input; `{error}` when the label does not resolve; or the bare
`{status}` dict when the label resolves but holds no messages. -/
theorem C8_delete_emails_in_label_shapes (env : GmailEnv)
    (label_name : String) (st : AdapterState) (r : DelResult)
    (h : (GmailTool.delete_emails_in_label env label_name st).1
      = Except.ok r) :
    (r.keys = ["status", "count", "label"] ∨ r.keys = ["error"]
      ∨ r.keys = ["status"]) ∧
    (∀ c lbl, r = DelResult.deleted c lbl → lbl = label_name ∧
      ∃ ls lid msgs, env.labelsList = Except.ok ls ∧
        (ls.find? (fun l => pyLower l.name == pyLower label_name)).map
          Label.id = some lid ∧
        env.messagesListByLabel lid = Except.ok msgs ∧ msgs ≠ [] ∧
        c = msgs.length) := by
  have hb := runAuthed_ok env
    (GmailTool.delete_emails_in_label_body env label_name) st r h
  unfold GmailTool.delete_emails_in_label_body at hb
  cases hl : env.labelsList with
  | error e => simp [hl, ApiM.bind, ApiM.call] at hb
  | ok ls =>
    simp only [hl, ApiM.bind, ApiM.call, ApiM.pure] at hb
    cases hf : ls.find? (fun l => pyLower l.name == pyLower label_name) with
    | none =>
      simp only [hf, Option.map_none, ApiM.pure] at hb
      cases hb
      exact ⟨Or.inr (Or.inl rfl), by intro c lbl heq; cases heq⟩
    | some lab =>
      simp only [hf, Option.map_some'] at hb
      by_cases hid : lab.id = ""
      · simp only [hid, if_pos rfl, ApiM.pure] at hb
        cases hb
        exact ⟨Or.inr (Or.inl rfl), by intro c lbl heq; cases heq⟩
      · rw [if_neg hid] at hb
        cases hm : env.messagesListByLabel lab.id with
        | error e => simp [hm, ApiM.bind, ApiM.call] at hb
        | ok msgs =>
          simp only [hm, ApiM.bind, ApiM.call] at hb
          by_cases hmsg : msgs = []
          · simp only [hmsg, if_pos rfl, ApiM.pure] at hb
            cases hb
            exact ⟨Or.inr (Or.inr rfl), by intro c lbl heq; cases heq⟩
          · rw [if_neg hmsg] at hb
            cases hbm : env.batchModify (msgs.map MsgRef.id) with
            | error e => simp [hbm, ApiM.bind, ApiM.call, ApiM.pure] at hb
            | ok u =>
              simp only [hbm, ApiM.bind, ApiM.call, ApiM.pure] at hb
              cases hb
              refine ⟨Or.inl rfl, ?_⟩
              intro c lbl heq
              injection heq with hc hlbl
              subst hc
              subst hlbl
              exact ⟨rfl, ls, lab.id, msgs,
                rfl, by rw [hf]; rfl, hm, hmsg, List.length_map msgs MsgRef.id⟩

/-- Witness for the C8 amended statement: deleting under label `Work`
(two messages) returns the `{status, count, label}` shape. -/
theorem C8_delete_emails_in_label_shapes_witness :
    (GmailTool.delete_emails_in_label labeledEnv "work" authedState).1
      = Except.ok (DelResult.deleted 2 "work") ∧
    ((DelResult.deleted 2 "work").keys = ["status", "count", "label"] ∨
      (DelResult.deleted 2 "work").keys = ["error"] ∨
      (DelResult.deleted 2 "work").keys = ["status"]) :=
  ⟨rfl, (C8_delete_emails_in_label_shapes labeledEnv "work" authedState
    (DelResult.deleted 2 "work") rfl).1⟩

/-- Agreement of two `delete_emails_in_label` results up to the verbatim
echo of the requested label name in the `label` field or error message. -/
def sameUpToLabelArg : DelResult → DelResult → Prop
  | DelResult.errorNotFound _, DelResult.errorNotFound _ => True
  | DelResult.noEmails, DelResult.noEmails => True
  | DelResult.deleted c1 _, DelResult.deleted c2 _ => c1 = c2
  | _, _ => False

/-- The same agreement on raised-or-returned outcomes: identical
exceptions, or returned values agreeing up to the echoed name. -/
def delResultAgree : Except String DelResult → Except String DelResult → Prop
  | Except.ok a, Except.ok b => sameUpToLabelArg a b
  | Except.error e1, Except.error e2 => e1 = e2
  | _, _ => False

/-- C10 counterexample: `"work"` and `"WORK"` agree under lowercase and
resolve to the same label `Work`, yet the two invocations return different
values, because the `label` field echoes the input verbatim. -/
theorem C10_counterexample_result_not_case_invariant :
    pyLower "work" = pyLower "WORK" ∧
    (GmailTool.delete_emails_in_label labeledEnv "work" authedState).1
      = Except.ok (DelResult.deleted 2 "work") ∧
    (GmailTool.delete_emails_in_label labeledEnv "WORK" authedState).1
      = Except.ok (DelResult.deleted 2 "WORK") ∧
    DelResult.deleted 2 "work" ≠ DelResult.deleted 2 "WORK" :=
  ⟨by decide, rfl, rfl, by decide⟩

/-- C10 amended: label resolution in `delete_emails_in_label` is
case-insensitive — two names agreeing under lowercase resolve to the same
label id (that of the first listed label matching under lowercase), make
the same REST calls and leave the same adapter state — and the outcomes
agree up to the label/error text, which echoes the verbatim input name. -/
theorem C10_label_resolution_case_insensitive (env : GmailEnv)
    (st : AdapterState) (n1 n2 : String) (h : pyLower n1 = pyLower n2) :
    (∀ ls : List Label,
      (ls.find? (fun l => pyLower l.name == pyLower n1)).map Label.id
        = (ls.find? (fun l => pyLower l.name == pyLower n2)).map Label.id) ∧
    (GmailTool.delete_emails_in_label env n1 st).2
      = (GmailTool.delete_emails_in_label env n2 st).2 ∧
    delResultAgree (GmailTool.delete_emails_in_label env n1 st).1
      (GmailTool.delete_emails_in_label env n2 st).1 := by
  have hpred : (fun l : Label => pyLower l.name == pyLower n1)
      = (fun l : Label => pyLower l.name == pyLower n2) := by
    funext l
    rw [h]
  have hbody : ∀ tr,
      (GmailTool.delete_emails_in_label_body env n1 tr).2
        = (GmailTool.delete_emails_in_label_body env n2 tr).2 ∧
      delResultAgree (GmailTool.delete_emails_in_label_body env n1 tr).1
        (GmailTool.delete_emails_in_label_body env n2 tr).1 := by
    intro tr
    unfold GmailTool.delete_emails_in_label_body
    rw [hpred]
    cases hl : env.labelsList with
    | error e => simp [ApiM.bind, ApiM.call, delResultAgree]
    | ok ls =>
      simp only [ApiM.bind, ApiM.call]
      cases hf : ls.find? (fun l => pyLower l.name == pyLower n2) with
      | none => simp [ApiM.pure, delResultAgree, sameUpToLabelArg]
      | some lab =>
        simp only [Option.map_some']
        by_cases hid : lab.id = ""
        · simp [hid, ApiM.pure, delResultAgree, sameUpToLabelArg]
        · cases hm : env.messagesListByLabel lab.id with
          | error e =>
            simp [hid, hm, ApiM.bind, ApiM.call, delResultAgree]
          | ok msgs =>
            by_cases hmsg : msgs = []
            · simp [hid, hm, hmsg, ApiM.bind, ApiM.call, ApiM.pure,
                delResultAgree, sameUpToLabelArg]
            · cases hbm : env.batchModify (msgs.map MsgRef.id) with
              | error e =>
                simp [hid, hm, hmsg, hbm, ApiM.bind, ApiM.call, ApiM.pure,
                  delResultAgree]
              | ok u =>
                simp [hid, hm, hmsg, hbm, ApiM.bind, ApiM.call, ApiM.pure,
                  delResultAgree, sameUpToLabelArg]
  have hlift :
      (GmailTool.delete_emails_in_label env n1 st).2
        = (GmailTool.delete_emails_in_label env n2 st).2 ∧
      delResultAgree (GmailTool.delete_emails_in_label env n1 st).1
        (GmailTool.delete_emails_in_label env n2 st).1 := by
    have hx := hbody st.trace
    rcases hb1 : GmailTool.delete_emails_in_label_body env n1 st.trace
      with ⟨r1, tr1⟩
    rcases hb2 : GmailTool.delete_emails_in_label_body env n2 st.trace
      with ⟨r2, tr2⟩
    rw [hb1, hb2] at hx
    unfold GmailTool.delete_emails_in_label runAuthed
    have htr : tr1 = tr2 := by simpa using hx.1
    have hr : delResultAgree r1 r2 := by simpa using hx.2
    rcases hs : st.service with _ | u
    · rcases ha : env.authResult with e | u2
      · simp [delResultAgree]
      · simp only [hb1, hb2]
        exact ⟨by rw [htr], hr⟩
    · simp only [hb1, hb2]
      exact ⟨by rw [htr], hr⟩
  exact ⟨fun ls => by rw [hpred], hlift.1, hlift.2⟩

/-- Witness for the C10 amended statement at names `Work` and `wOrK`. -/
theorem C10_label_resolution_case_insensitive_witness :
    (GmailTool.delete_emails_in_label labeledEnv "Work" authedState).2
      = (GmailTool.delete_emails_in_label labeledEnv "wOrK" authedState).2 ∧
    delResultAgree
      (GmailTool.delete_emails_in_label labeledEnv "Work" authedState).1
      (GmailTool.delete_emails_in_label labeledEnv "wOrK" authedState).1 :=
  ⟨(C10_label_resolution_case_insensitive labeledEnv authedState "Work"
      "wOrK" (by decide)).2.1,
   (C10_label_resolution_case_insensitive labeledEnv authedState "Work"
      "wOrK" (by decide)).2.2⟩

end PersonalAssistant
